import Mathlib

/-!
Verification of the pyHS100 TP-Link smart-home client.

This file shallowly embeds the protocol- and state-translation logic of the
repository (src/smartdevice.py, src/smartbulb.py, src/pyHS100/smartplug.py,
src/discover.py) and proves or refutes the frozen claims about it.

JSON values are modelled by the inductive `JVal`; Python exceptions by
`PyError`; fallible Python code returns `Except PyError`.  Network exchanges
are modelled by passing the device response explicitly (`ProtoFn`), and each
device operation also returns the list of requests it put on the wire, so
"no network call" is the statement that this list is empty.
-/

/-- A JSON value, as produced by `json.loads`. -/
inductive JVal where
  | jnull
  | jbool (b : Bool)
  | jint (n : Int)
  | jstr (s : String)
  | jarr (elems : List JVal)
  | jobj (fields : List (String × JVal))

/-- The Python exceptions the embedded code can raise.  `smartDeviceException`
is the library's own typed error; the others are untyped built-in errors. -/
inductive PyError where
  | smartDeviceException (msg : String)
  | keyError (key : String)
  | typeError (msg : String)
  | nameError (nm : String)
  | socketError (msg : String)
deriving DecidableEq

/-- First binding of a key in a JSON object (Python dict keys are unique). -/
def lookupField : List (String × JVal) → String → Option JVal
  | [], _ => none
  | (k, v) :: rest, key => if k == key then some v else lookupField rest key

/-- Python `key in d` for a dict. -/
def hasField (fs : List (String × JVal)) (key : String) : Bool :=
  (lookupField fs key).isSome

/-- Remove a key from a JSON object (Python `del d[key]`, key present). -/
def removeField : List (String × JVal) → String → List (String × JVal)
  | [], _ => []
  | (k, v) :: rest, key =>
    if k == key then removeField rest key else (k, v) :: removeField rest key

/-- Character-list prefix test, used for substring containment. -/
def isPrefixList : List Char → List Char → Bool
  | [], _ => true
  | _ :: _, [] => false
  | a :: as, b :: bs => a == b && isPrefixList as bs

/-- Does `needle` occur as a contiguous substring of the character list? -/
def hasSubstring (needle : List Char) : List Char → Bool
  | [] => isPrefixList needle []
  | c :: rest => isPrefixList needle (c :: rest) || hasSubstring needle rest

/-- Python `needle in hay` for strings: substring containment. -/
def strContains (hay needle : String) : Bool := hasSubstring needle.data hay.data

/-- Python `s.lower()` (ASCII, which is all the device-type markers use). -/
def pyLower (s : String) : String := String.mk (s.data.map Char.toLower)

/-- Python `key in v`: key test on dicts, element test on lists, substring
test on strings, `TypeError` on non-containers. -/
def pyContainsKey (key : String) (v : JVal) : Except PyError Bool :=
  match v with
  | .jobj fs => .ok (hasField fs key)
  | .jarr xs => .ok (xs.any (fun x => match x with | .jstr s => s == key | _ => false))
  | .jstr s => .ok (strContains s key)
  | _ => .error (.typeError "argument is not iterable")

/-- Python `v[key]`: dict lookup raising `KeyError` when the key is absent and
`TypeError` when `v` is not a dict. -/
def pySubscript (v : JVal) (key : String) : Except PyError JVal :=
  match v with
  | .jobj fs =>
    match lookupField fs key with
    | some x => .ok x
    | none => .error (.keyError key)
  | _ => .error (.typeError "object is not subscriptable")

/-- Python `del v[key]`: raises `KeyError` when the key is absent and
`TypeError` when `v` is not a dict. -/
def pyDelKey (v : JVal) (key : String) : Except PyError JVal :=
  match v with
  | .jobj fs =>
    if hasField fs key then .ok (.jobj (removeField fs key))
    else .error (.keyError key)
  | _ => .error (.typeError "object does not support item deletion")

/-- Python `v != 0` for a JSON value (`False == 0`, `True == 1`, every
non-number compares unequal to `0`). -/
def pyNeZero (v : JVal) : Bool :=
  match v with
  | .jint n => n != 0
  | .jbool b => b
  | _ => true

/-- Python truthiness of a JSON value. -/
def pyTruthy : JVal → Bool
  | .jnull => false
  | .jbool b => b
  | .jint n => n != 0
  | .jstr s => s != ""
  | .jarr xs => !xs.isEmpty
  | .jobj fs => !fs.isEmpty

/-- Python `int(v)` on the numeric values the devices report.  (`int` of a
string parses it; the embedded code only ever converts numbers, so other
shapes are modelled as the error Python would raise for non-numeric input.) -/
def pyInt : JVal → Except PyError Int
  | .jint n => .ok n
  | .jbool b => .ok (if b then 1 else 0)
  | _ => .error (.typeError "int conversion of a non-number")

/-- A device exchange: maps the encoded request to the parsed response, or to
an error for any transport-level failure (`protocol.query` raising). -/
def ProtoFn : Type := JVal → Except Unit JVal

/-- The request shape built by `_query_helper`: `{target: {cmd: arg}}`. -/
def mkRequest (target cmd : String) (arg : JVal) : JVal :=
  .jobj [(target, .jobj [(cmd, arg)])]

/-- `SmartDevice._query_helper` (src/smartdevice.py), validation phase: given
the outcome of `self.protocol.query`, either the unwrapped result or the
raised exception.  Mirrors the source line by line: any exception from the
transport becomes `SmartDeviceException('Communication error')`; a missing
namespace raises; `err_code` is tested at the namespace level only; the inner
command object then has `err_code` deleted unconditionally and is returned. -/
def SmartDevice.queryHelper (outcome : Except Unit JVal) (target cmd : String) :
    Except PyError JVal :=
  match outcome with
  | .error _ => .error (.smartDeviceException "Communication error")
  | .ok response =>
    match pyContainsKey target response with
    | .error e => .error e
    | .ok false =>
      .error (.smartDeviceException ("No required " ++ target ++ " in response"))
    | .ok true =>
      match pySubscript response target with
      | .error e => .error e
      | .ok result =>
        match pyContainsKey "err_code" result with
        | .error e => .error e
        | .ok hasErr =>
          match (if hasErr then (pySubscript result "err_code").map pyNeZero
                 else .ok false : Except PyError Bool) with
          | .error e => .error e
          | .ok true =>
            .error (.smartDeviceException ("Error on " ++ target ++ "." ++ cmd))
          | .ok false =>
            match pySubscript result cmd with
            | .error e => .error e
            | .ok inner => pyDelKey inner "err_code"

/-- One full `_query_helper` call: builds the request (`arg=None` defaults to
`{}`), performs the exchange, validates, and records the request sent. -/
def SmartDevice.query (proto : ProtoFn) (target cmd : String) (arg : Option JVal) :
    Except PyError JVal × List (String × String × JVal) :=
  let effArg := arg.getD (.jobj [])
  (SmartDevice.queryHelper (proto (mkRequest target cmd effArg)) target cmd,
   [(target, cmd, effArg)])

/-- Per-family device configuration (`SmartDevice.__init__` and the subclass
constructors): `emeter_type` is `"emeter"` for plugs and
`"smartlife.iot.common.emeter"` for bulbs; `emeter_units` is `False` for
plugs and `True` for bulbs; `has_emeter` is the value of the family's
`has_emeter` property. -/
structure SmartDeviceCfg where
  has_emeter : Bool
  emeter_type : String
  emeter_units : Bool

/-- `SmartDevice.FEATURE_ENERGY_METER`. -/
def SmartDevice.FEATURE_ENERGY_METER : String := "ENE"

/-- `SmartDevice.sys_info` wraps `get_sysinfo()` in
`defaultdict(lambda: None, ...)`: missing keys read as `None`. -/
def sysInfoGet (si : List (String × JVal)) (key : String) : JVal :=
  match lookupField si key with
  | some v => v
  | none => .jnull

/-- Python `s.split(sep)` for a single-character separator. -/
def splitOnChar (sep : Char) : List Char → List (List Char)
  | [] => [[]]
  | c :: rest =>
    let r := splitOnChar sep rest
    if c == sep then [] :: r
    else
      match r with
      | [] => [[c]]
      | g :: gs => (c :: g) :: gs

/-- `SmartPlug.has_emeter` (src/pyHS100/smartplug.py): split the sysinfo
`feature` string on `:` and test membership of the energy-meter marker.
A missing or non-string `feature` gives `None.split`, an untyped error. -/
def SmartPlug.has_emeter (si : List (String × JVal)) : Except PyError Bool :=
  match sysInfoGet si "feature" with
  | .jstr s =>
    .ok (((splitOnChar ':' s.data).map String.mk).contains
      SmartDevice.FEATURE_ENERGY_METER)
  | _ => .error (.typeError "split of a non-string")

/-- `SmartBulb.has_emeter` (src/smartbulb.py): constant `True`. -/
def SmartBulb.has_emeter : Bool := true

/-- `SmartDevice.get_emeter_realtime` (src/smartdevice.py): `None` with no
query when the device has no emeter, otherwise one `get_realtime` query. -/
def SmartDevice.get_emeter_realtime (dev : SmartDeviceCfg) (proto : ProtoFn) :
    Except PyError (Option JVal) × List (String × String × JVal) :=
  if dev.has_emeter then
    let (r, log) := SmartDevice.query proto dev.emeter_type "get_realtime" none
    (r.map some, log)
  else (.ok none, [])

/-- Python hashable-key equality for the dict keys the emeter responses use
(`True == 1` also as a key; lists and dicts are unhashable). -/
def pyHashKeyEq (a b : JVal) : Bool :=
  match a, b with
  | .jnull, .jnull => true
  | .jbool x, .jbool y => x == y
  | .jbool x, .jint y => (if x then (1 : Int) else 0) == y
  | .jint x, .jbool y => x == (if y then (1 : Int) else 0)
  | .jint x, .jint y => x == y
  | .jstr x, .jstr y => x == y
  | _, _ => false

/-- Python hashability of a JSON value (dict keys must be hashable). -/
def pyHashable (v : JVal) : Bool :=
  match v with
  | .jarr _ => false
  | .jobj _ => false
  | _ => true

/-- Python dict assignment `d[k] = v`: replace the value of an existing key in
place, otherwise append in insertion order. -/
def dictInsert (d : List (JVal × JVal)) (k v : JVal) : List (JVal × JVal) :=
  if d.any (fun p => pyHashKeyEq p.1 k) then
    d.map (fun p => if pyHashKeyEq p.1 k then (p.1, v) else p)
  else d ++ [(k, v)]

/-- The dict comprehension in `get_emeter_daily` / `get_emeter_monthly`:
`dict((entry[periodKey], entry[valueKey]) for entry in entries)`. -/
def buildPeriodDict (periodKey valueKey : String) :
    List JVal → List (JVal × JVal) → Except PyError (List (JVal × JVal))
  | [], acc => .ok acc
  | e :: rest, acc =>
    match pySubscript e periodKey with
    | .error err => .error err
    | .ok d =>
      match pySubscript e valueKey with
      | .error err => .error err
      | .ok v =>
        if pyHashable d then buildPeriodDict periodKey valueKey rest (dictInsert acc d v)
        else .error (.typeError "unhashable type")

/-- `SmartDevice.get_emeter_daily` (src/smartdevice.py).  The `year`/`month`
defaults come from the current date in the source and are passed explicitly
here.  Returns `None` with no query when the device has no emeter; otherwise
queries `get_daystat` and folds `day_list` into a day-to-energy dict, reading
`energy_wh` under scaled units and `energy` under raw units.  (The source
iterates whatever `day_list` holds; responses are lists, and only lists are
modelled.) -/
def SmartDevice.get_emeter_daily (dev : SmartDeviceCfg) (proto : ProtoFn)
    (year month : Int) :
    Except PyError (Option (List (JVal × JVal))) × List (String × String × JVal) :=
  if dev.has_emeter then
    let (r, log) := SmartDevice.query proto dev.emeter_type "get_daystat"
      (some (.jobj [("month", .jint month), ("year", .jint year)]))
    match r with
    | .error e => (.error e, log)
    | .ok response =>
      let key := if dev.emeter_units then "energy_wh" else "energy"
      match pySubscript response "day_list" with
      | .error e => (.error e, log)
      | .ok (.jarr entries) =>
        match buildPeriodDict "day" key entries [] with
        | .error e => (.error e, log)
        | .ok d => (.ok (some d), log)
      | .ok _ => (.error (.typeError "iteration over a non-list"), log)
  else (.ok none, [])

/-- `SmartDevice.get_emeter_monthly` (src/smartdevice.py): as daily, with
`get_monthstat`, `month_list` and the `month` period key. -/
def SmartDevice.get_emeter_monthly (dev : SmartDeviceCfg) (proto : ProtoFn)
    (year : Int) :
    Except PyError (Option (List (JVal × JVal))) × List (String × String × JVal) :=
  if dev.has_emeter then
    let (r, log) := SmartDevice.query proto dev.emeter_type "get_monthstat"
      (some (.jobj [("year", .jint year)]))
    match r with
    | .error e => (.error e, log)
    | .ok response =>
      let key := if dev.emeter_units then "energy_wh" else "energy"
      match pySubscript response "month_list" with
      | .error e => (.error e, log)
      | .ok (.jarr entries) =>
        match buildPeriodDict "month" key entries [] with
        | .error e => (.error e, log)
        | .ok d => (.ok (some d), log)
      | .ok _ => (.error (.typeError "iteration over a non-list"), log)
  else (.ok none, [])

/-- `SmartDevice.erase_emeter_stats` (src/smartdevice.py): `False` with no
query when the device has no emeter; otherwise one `erase_emeter_stat` query,
returning `True` when it does not raise. -/
def SmartDevice.erase_emeter_stats (dev : SmartDeviceCfg) (proto : ProtoFn) :
    Except PyError Bool × List (String × String × JVal) :=
  if dev.has_emeter then
    let (r, log) := SmartDevice.query proto dev.emeter_type "erase_emeter_stat" none
    match r with
    | .error e => (.error e, log)
    | .ok _ => (.ok true, log)
  else (.ok false, [])

/-- The bulb's lighting-service namespace (src/smartbulb.py). -/
def SmartBulb.lightingServiceNs : String := "smartlife.iot.smartbulb.lightingservice"

/-- `SmartBulb.is_color`: truthiness of the sysinfo `is_color` flag. -/
def SmartBulb.is_color (si : List (String × JVal)) : Bool :=
  pyTruthy (sysInfoGet si "is_color")

/-- `SmartBulb.is_dimmable`: truthiness of the sysinfo `is_dimmable` flag. -/
def SmartBulb.is_dimmable (si : List (String × JVal)) : Bool :=
  pyTruthy (sysInfoGet si "is_dimmable")

/-- `SmartBulb.is_variable_color_temp`: truthiness of the corresponding
sysinfo flag. -/
def SmartBulb.is_variable_color_temp (si : List (String × JVal)) : Bool :=
  pyTruthy (sysInfoGet si "is_variable_color_temp")

/-- `SmartBulb.get_light_state`: a `get_light_state` query on the lighting
service.  Each property access issues a fresh query; modelling the exchange
as a function of the request means repeated queries see the same reply, which
is the synthetic-reply setting of the claims. -/
def SmartBulb.get_light_state (proto : ProtoFn) :
    Except PyError JVal × List (String × String × JVal) :=
  SmartDevice.query proto SmartBulb.lightingServiceNs "get_light_state" none

/-- `SmartBulb.set_light_state`: a `transition_light_state` query carrying the
new state object. -/
def SmartBulb.set_light_state (proto : ProtoFn) (state : JVal) :
    Except PyError JVal × List (String × String × JVal) :=
  SmartDevice.query proto SmartBulb.lightingServiceNs "transition_light_state"
    (some state)

/-- `SmartBulb.state`: `'ON'` when the light state's `on_off` is truthy,
`'OFF'` otherwise; exceptions from the query propagate. -/
def SmartBulb.state (proto : ProtoFn) : Except PyError String :=
  match (SmartBulb.get_light_state proto).1 with
  | .error e => .error e
  | .ok ls =>
    match pySubscript ls "on_off" with
    | .error e => .error e
    | .ok v => .ok (if pyTruthy v then "ON" else "OFF")

/-- `SmartBulb.is_on`: `state == BULB_STATE_ON`. -/
def SmartBulb.is_on (proto : ProtoFn) : Except PyError Bool :=
  (SmartBulb.state proto).map (fun s => s == "ON")

/-- `int(a * m / d)` as the source computes it with true division: for the
small non-negative ranges the device reports the float quotient truncates to
the integer quotient, truncation toward zero (`Int.tdiv`). -/
def intScale (a m d : Int) : Int := Int.tdiv (a * m) d

/-- `SmartBulb.hsv` getter (src/smartbulb.py lines 92-115): `None` when the
bulb is not color-capable; otherwise hue, saturation and 0-255 value, read
from the top-level light-state fields when the bulb is on and from the nested
`dft_on_state` object when it is off. -/
def SmartBulb.hsv (si : List (String × JVal)) (proto : ProtoFn) :
    Except PyError (Option (JVal × JVal × Int)) :=
  if SmartBulb.is_color si then
    match (SmartBulb.get_light_state proto).1 with
    | .error e => .error e
    | .ok ls =>
      match SmartBulb.is_on proto with
      | .error e => .error e
      | .ok isOn =>
        if !isOn then
          match pySubscript ls "dft_on_state" with
          | .error e => .error e
          | .ok dft =>
            match pySubscript dft "hue" with
            | .error e => .error e
            | .ok hue =>
              match pySubscript dft "saturation" with
              | .error e => .error e
              | .ok sat =>
                match pySubscript dft "brightness" with
                | .error e => .error e
                | .ok bv =>
                  match pyInt bv with
                  | .error e => .error e
                  | .ok b => .ok (some (hue, sat, intScale b 255 100))
        else
          match pySubscript ls "hue" with
          | .error e => .error e
          | .ok hue =>
            match pySubscript ls "saturation" with
            | .error e => .error e
            | .ok sat =>
              match pySubscript ls "brightness" with
              | .error e => .error e
              | .ok bv =>
                match pyInt bv with
                | .error e => .error e
                | .ok b => .ok (some (hue, sat, intScale b 255 100))
  else .ok none

/-- `SmartBulb.hsv` setter (src/smartbulb.py lines 117-133): no-op when not
color-capable; otherwise sends a transition with the external 0-255 value
converted to the native 0-100 scale by `int(state[2] * 100 / 255)`. -/
def SmartBulb.hsvSet (si : List (String × JVal)) (proto : ProtoFn)
    (hue sat v : Int) : Except PyError Unit × List (String × String × JVal) :=
  if SmartBulb.is_color si then
    let lightState : JVal := .jobj
      [("hue", .jint hue), ("saturation", .jint sat),
       ("brightness", .jint (intScale v 100 255)), ("color_temp", .jint 0)]
    let (r, log) := SmartBulb.set_light_state proto lightState
    (r.map (fun _ => ()), log)
  else (.ok (), [])

/-- `SmartBulb.color_temp` getter (src/smartbulb.py lines 135-150): `None`
without the capability; the top-level `color_temp` when on, the
`dft_on_state` one when off. -/
def SmartBulb.color_temp (si : List (String × JVal)) (proto : ProtoFn) :
    Except PyError (Option Int) :=
  if SmartBulb.is_variable_color_temp si then
    match (SmartBulb.get_light_state proto).1 with
    | .error e => .error e
    | .ok ls =>
      match SmartBulb.is_on proto with
      | .error e => .error e
      | .ok isOn =>
        if !isOn then
          match pySubscript ls "dft_on_state" with
          | .error e => .error e
          | .ok dft =>
            match pySubscript dft "color_temp" with
            | .error e => .error e
            | .ok v => (pyInt v).map some
        else
          match pySubscript ls "color_temp" with
          | .error e => .error e
          | .ok v => (pyInt v).map some
  else .ok none

/-- `SmartBulb.brightness` getter (src/smartbulb.py lines 168-182): `None`
when not dimmable; the top-level `brightness` when on, the `dft_on_state` one
when off. -/
def SmartBulb.brightness (si : List (String × JVal)) (proto : ProtoFn) :
    Except PyError (Option Int) :=
  if SmartBulb.is_dimmable si then
    match (SmartBulb.get_light_state proto).1 with
    | .error e => .error e
    | .ok ls =>
      match SmartBulb.is_on proto with
      | .error e => .error e
      | .ok isOn =>
        if !isOn then
          match pySubscript ls "dft_on_state" with
          | .error e => .error e
          | .ok dft =>
            match pySubscript dft "brightness" with
            | .error e => .error e
            | .ok v => (pyInt v).map some
        else
          match pySubscript ls "brightness" with
          | .error e => .error e
          | .ok v => (pyInt v).map some
  else .ok none

/-- `SmartBulb.brightness` setter (src/smartbulb.py lines 184-197): no-op
when not dimmable; otherwise sends the caller's value, unvalidated, as the
`brightness` field of a transition query. -/
def SmartBulb.brightnessSet (si : List (String × JVal)) (proto : ProtoFn)
    (brightness : Int) : Except PyError Unit × List (String × String × JVal) :=
  if SmartBulb.is_dimmable si then
    let (r, log) := SmartBulb.set_light_state proto (.jobj [("brightness", .jint brightness)])
    (r.map (fun _ => ()), log)
  else (.ok (), [])

/-- Decimal value of a digit string. -/
def digitsVal (cs : List Char) : Nat :=
  cs.foldl (fun a c => a * 10 + (c.toNat - 48)) 0

/-- Model of `socket.inet_pton(socket.AF_INET, s)` validity for one octet: one
to three decimal digits valuing at most 255. -/
def isIPv4Octet (cs : List Char) : Bool :=
  decide (1 ≤ cs.length) && decide (cs.length ≤ 3) &&
    cs.all Char.isDigit && decide (digitsVal cs ≤ 255)

/-- Whether `socket.inet_pton(socket.AF_INET, ip)` accepts the string: a
well-formed dotted-quad IPv4 address. -/
def inet_pton_valid (ip : String) : Bool :=
  let parts := splitOnChar '.' ip.data
  parts.length == 4 && parts.all isIPv4Octet

/-- `SmartDevice.__init__` (src/smartdevice.py lines 43-57): validates the
address with `inet_pton` before anything else; no query is ever issued
(second component), and a malformed address raises `socket.error`. -/
def SmartDevice.init (ip : String) :
    Except PyError String × List (String × String × JVal) :=
  (if inet_pton_valid ip then .ok ip
   else .error (.socketError "illegal IP address string passed to inet_pton"),
   [])

/-- The two device families discovery can instantiate. -/
inductive DeviceKind where
  | plug
  | bulb
deriving DecidableEq

/-- One datagram received during discovery: either bytes on which
`protocol.decrypt`/`json.loads` raises (`bad`), or a parsed reply with its
source address. -/
inductive Datagram where
  | bad
  | good (ip : String) (info : JVal)

/-- The receive loop's local state: the accumulated `devices` dict and the
Python local variable `type`, which is only assigned on some paths (`none`
models it being unbound, a `NameError` on use). -/
structure DiscState where
  devices : List (String × DeviceKind)
  lastType : Option JVal

/-- Python dict assignment `devices[ip] = dev`: replace the existing key's
value in place, otherwise append in insertion order. -/
def insertDevice : List (String × DeviceKind) → String → DeviceKind →
    List (String × DeviceKind)
  | [], ip, k => [(ip, k)]
  | (a, b) :: rest, ip, k =>
    if a == ip then (a, k) :: rest else (a, b) :: insertDevice rest ip k

/-- Lookup in the discovery mapping. -/
def lookupDevice : List (String × DeviceKind) → String → Option DeviceKind
  | [], _ => none
  | (k, v) :: rest, ip => if k == ip then some v else lookupDevice rest ip

/-- The type-extraction block of the receive loop (src/discover.py lines
61-71): when the reply carries `system.get_sysinfo`, read `type`, else
`mic_type`, else `'UNKNOWN'`; when it does not, only log — the `type`
variable keeps its previous value (`st`). -/
def extractTypeField (st : Option JVal) (info : JVal) : Except PyError (Option JVal) :=
  match pyContainsKey "system" info with
  | .error e => .error e
  | .ok false => .ok st
  | .ok true =>
    match pySubscript info "system" with
    | .error e => .error e
    | .ok sysv =>
      match pyContainsKey "get_sysinfo" sysv with
      | .error e => .error e
      | .ok false => .ok st
      | .ok true =>
        match pySubscript sysv "get_sysinfo" with
        | .error e => .error e
        | .ok sysinfo =>
          match pyContainsKey "type" sysinfo with
          | .error e => .error e
          | .ok true => (pySubscript sysinfo "type").map some
          | .ok false =>
            match pyContainsKey "mic_type" sysinfo with
            | .error e => .error e
            | .ok true => (pySubscript sysinfo "mic_type").map some
            | .ok false => .ok (some (.jstr "UNKNOWN"))

/-- One iteration of the discovery receive loop (src/discover.py lines 57-75).
An exception anywhere in the body escapes the `while` and is caught by the
handlers around it, which return the devices accumulated so far — modelled by
`.error st.devices`.  A `bad` datagram raises in `json.loads`; an unbound
`type` raises `NameError`; `type.lower()` on a non-string raises; otherwise
the reply is classified by case-insensitive substring match. -/
def discStep (st : DiscState) (d : Datagram) :
    Except (List (String × DeviceKind)) DiscState :=
  match d with
  | .bad => .error st.devices
  | .good ip info =>
    match extractTypeField st.lastType info with
    | .error _ => .error st.devices
    | .ok none => .error st.devices
    | .ok (some tv) =>
      match tv with
      | .jstr t =>
        if strContains (pyLower t) "smartplug" then
          .ok ⟨insertDevice st.devices ip .plug, some tv⟩
        else if strContains (pyLower t) "smartbulb" then
          .ok ⟨insertDevice st.devices ip .bulb, some tv⟩
        else .ok ⟨st.devices, some tv⟩
      | _ => .error st.devices

/-- The discovery receive loop over the datagrams arriving before the socket
timeout; the timeout itself (end of list) returns the accumulated mapping. -/
def discoverLoop : List Datagram → DiscState → List (String × DeviceKind)
  | [], st => st.devices
  | d :: rest, st =>
    match discStep st d with
    | .error devs => devs
    | .ok st2 => discoverLoop rest st2

/-- `Discover.discover` (src/discover.py): the mapping produced by one
discovery call that receives the given datagrams. -/
def Discover.discover (dgs : List Datagram) : List (String × DeviceKind) :=
  discoverLoop dgs ⟨[], none⟩

/-- A sysinfo reply declaring a primary `type`. -/
def sysReplyWithType (t : JVal) : JVal :=
  .jobj [("system", .jobj [("get_sysinfo", .jobj [("type", t)])])]

/-- A sysinfo reply declaring only the legacy `mic_type`. -/
def sysReplyWithMicType (t : JVal) : JVal :=
  .jobj [("system", .jobj [("get_sysinfo", .jobj [("mic_type", t)])])]

/-- A sysinfo reply declaring both fields. -/
def sysReplyWithBoth (t mt : JVal) : JVal :=
  .jobj [("system", .jobj [("get_sysinfo", .jobj [("type", t), ("mic_type", mt)])])]

/-- The classification rule as the spec states it: case-insensitive substring
match of the declared type against the two family markers. -/
def specClassify (t : String) : Option DeviceKind :=
  if strContains (pyLower t) "smartplug" then some .plug
  else if strContains (pyLower t) "smartbulb" then some .bulb
  else none

/-- Applying the spec's classification of a declared type to the mapping. -/
def applyClassification (ds : List (String × DeviceKind)) (ip t : String) :
    List (String × DeviceKind) :=
  match specClassify t with
  | some k => insertDevice ds ip k
  | none => ds

/-- Modelled from the spec: `TPLinkSmartHomeProtocol.encrypt` lives in the
repository's `protocol.py`, which is not under src/.  Spec section 4.1: the
payload transform is a first-order autoregressive XOR chain — each plaintext
byte is XORed with the previous output byte, seeded with a fixed initial
key (the well-known device constant 171). -/
def xorChainEncrypt (key : Nat) : List Nat → List Nat
  | [] => []
  | b :: bs =>
    let c := (key ^^^ b) % 256
    c :: xorChainEncrypt c bs

/-- The 4-byte big-endian encoding of a payload length. -/
def be32pack (n : Nat) : List Nat :=
  [n / 2 ^ 24 % 256, n / 2 ^ 16 % 256, n / 2 ^ 8 % 256, n % 256]

/-- Modelled from the spec: the fixed initial key of the XOR chain. -/
def TPLinkSmartHomeProtocol.initialKey : Nat := 171

/-- Modelled from the spec (section 4.1): `TPLinkSmartHomeProtocol.encrypt`
prepends the 4-byte big-endian plaintext length to the obfuscated payload.
This is the Wire Codec encoding, and per spec section 4.2 the TCP query
transport sends exactly this frame. -/
def TPLinkSmartHomeProtocol.encrypt (plaintext : List Nat) : List Nat :=
  be32pack plaintext.length ++
    xorChainEncrypt TPLinkSmartHomeProtocol.initialKey plaintext

/-- The bytes `Discover.discover` broadcasts over UDP (src/discover.py lines
47-51): `sock.sendto(encrypted_req[4:], ...)` — the encoding of the request
with its first four bytes dropped. -/
def Discover.broadcastPayload (req : List Nat) : List Nat :=
  (TPLinkSmartHomeProtocol.encrypt req).drop 4

/-- The namespace-level `err_code` test of `_query_helper` passes: the key is
absent at that level, or present with a value Python compares equal to 0. -/
def errCodeCheckPasses (tfs : List (String × JVal)) : Bool :=
  match lookupField tfs "err_code" with
  | none => true
  | some v => !pyNeZero v

/-- Synthetic bulb light-state fields: `on_off`, the four top-level light
attributes, and the nested `dft_on_state` object with its own four. -/
def mkLightStateFields (onOff : JVal) (th ts tb tc dh dsat db dc : Int) :
    List (String × JVal) :=
  [("on_off", onOff),
   ("hue", .jint th), ("saturation", .jint ts),
   ("brightness", .jint tb), ("color_temp", .jint tc),
   ("dft_on_state", .jobj
     [("hue", .jint dh), ("saturation", .jint dsat),
      ("brightness", .jint db), ("color_temp", .jint dc)])]

/-- A device that answers every query with the given light state (plus the
mandatory `err_code: 0`) under `get_light_state`. -/
def bulbReply (fields : List (String × JVal)) : ProtoFn := fun _ =>
  .ok (.jobj [(SmartBulb.lightingServiceNs,
    .jobj [("get_light_state", .jobj (("err_code", .jint 0) :: fields))])])

/-- A device that acknowledges a `transition_light_state` command. -/
def bulbSetReply : ProtoFn := fun _ =>
  .ok (.jobj [(SmartBulb.lightingServiceNs,
    .jobj [("transition_light_state", .jobj [("err_code", .jint 0)])])])

/-- A sysinfo snapshot advertising color, dimming and variable color
temperature. -/
def siAllCaps : List (String × JVal) :=
  [("is_color", .jint 1), ("is_dimmable", .jint 1),
   ("is_variable_color_temp", .jint 1)]

/-- A sysinfo snapshot advertising color and dimming. -/
def siColorDim : List (String × JVal) :=
  [("is_color", .jint 1), ("is_dimmable", .jint 1)]

/-- A per-day emeter entry carrying both unit fields. -/
def dayEntry (d w e : Int) : JVal :=
  .jobj [("day", .jint d), ("energy_wh", .jint w), ("energy", .jint e)]

/-- A per-day emeter entry carrying only the scaled `energy_wh` field. -/
def dayEntryWh (d w : Int) : JVal :=
  .jobj [("day", .jint d), ("energy_wh", .jint w)]

/-- A device that answers every query with the given `day_list` under
`emeter.get_daystat`. -/
def dayReply (entries : List JVal) : ProtoFn := fun _ =>
  .ok (.jobj [("emeter", .jobj [("get_daystat",
    .jobj [("day_list", .jarr entries), ("err_code", .jint 0)])])])

/-- A discovery reply that parses but has no `system`/`get_sysinfo`. -/
def noSysinfoReply : JVal := .jobj [("fakery", .jnull)]

/-- Inserting a key always makes it present with the inserted value: the
later assignment wins. -/
theorem lookupDevice_insertDevice (ds : List (String × DeviceKind)) (ip : String)
    (k : DeviceKind) : lookupDevice (insertDevice ds ip k) ip = some k := by
  induction ds with
  | nil => simp [insertDevice, lookupDevice]
  | cons a rest ih =>
    rcases a with ⟨aip, ak⟩
    by_cases h : aip == ip
    · simp [insertDevice, h, lookupDevice]
    · simp [insertDevice, h, lookupDevice, ih]

/-- C1: the claim says a response whose requested namespace is present and
whose nonzero integer `err_code` is carried in the namespace's inner command
object must raise a device-reported SmartDeviceException and never be
returned as a success.  Evaluating the embedded `_query_helper` at the
response `{"system": {"get_sysinfo": {"err_code": -1}}}` shows the code
instead deletes the inner `err_code` and returns the remainder as a
successful result: the nonzero device error is swallowed. -/
theorem c1_inner_err_code_returned_ok :
    SmartDevice.queryHelper
      (.ok (.jobj [("system", .jobj [("get_sysinfo", .jobj [("err_code", .jint (-1))])])]))
      "system" "get_sysinfo" = .ok (.jobj []) := rfl

/-- C2 counterexample: the claim says a malformed reply is skipped and does
not prevent later well-formed replies from being classified and added.  With
an undecodable datagram followed by a well-formed smartplug reply, discovery
returns the empty mapping — the same well-formed reply alone yields its plug
entry, so the malformed reply did prevent it. -/
theorem c2_malformed_reply_not_skipped :
    Discover.discover
      [Datagram.bad,
       Datagram.good "192.168.0.2" (sysReplyWithType (.jstr "IOT.SMARTPLUGSWITCH"))] = []
    ∧ Discover.discover
      [Datagram.good "192.168.0.2" (sysReplyWithType (.jstr "IOT.SMARTPLUGSWITCH"))] =
      [("192.168.0.2", DeviceKind.plug)] := by
  exact ⟨by decide, by decide⟩

/-- C2 amended: an undecodable reply terminates the receive loop (the
exception is caught outside the `while`), so discovery returns exactly the
mapping accumulated from the replies before it and ignores the rest; a
parsed reply lacking `system`/`get_sysinfo` is not skipped either — as the
first reply it aborts the loop through an unbound `type` (`NameError`), and
after a classified reply it is classified with the previous reply's stale
type and added to the mapping. -/
theorem c2_malformed_reply_aborts_loop :
    (∀ (pre post : List Datagram) (st : DiscState),
      discoverLoop (pre ++ Datagram.bad :: post) st = discoverLoop pre st)
    ∧ Discover.discover
      [Datagram.good "192.168.0.5" noSysinfoReply,
       Datagram.good "192.168.0.6" (sysReplyWithType (.jstr "IOT.SMARTPLUGSWITCH"))] = []
    ∧ Discover.discover
      [Datagram.good "192.168.0.6" (sysReplyWithType (.jstr "IOT.SMARTPLUGSWITCH")),
       Datagram.good "192.168.0.5" noSysinfoReply] =
      [("192.168.0.6", DeviceKind.plug), ("192.168.0.5", DeviceKind.plug)] := by
  refine ⟨?_, by decide, by decide⟩
  intro pre post st
  induction pre generalizing st with
  | nil => rfl
  | cons d rest ih =>
    cases h : discStep st d with
    | error devs => simp [discoverLoop, h]
    | ok st2 => simp [discoverLoop, h, ih]

/-- C4: a reply carrying `system.get_sysinfo` is classified from its primary
`type` field, falling back to the legacy `mic_type` only when `type` is
absent; the declared string is matched case-insensitively for the
"smartplug" and "smartbulb" markers (`specClassify`), a match inserts a
device of that family keyed by the source address, the inserted value is
what a subsequent lookup of the address sees (the later reply wins), and a
concrete run with two replies from one address keeps only the second
classification. -/
theorem c4_discovery_classification (st : DiscState) (ds : List (String × DeviceKind))
    (ip t mt : String) (k : DeviceKind) :
    discStep st (.good ip (sysReplyWithType (.jstr t))) =
      .ok ⟨applyClassification st.devices ip t, some (.jstr t)⟩
    ∧ discStep st (.good ip (sysReplyWithMicType (.jstr t))) =
      .ok ⟨applyClassification st.devices ip t, some (.jstr t)⟩
    ∧ discStep st (.good ip (sysReplyWithBoth (.jstr t) (.jstr mt))) =
      .ok ⟨applyClassification st.devices ip t, some (.jstr t)⟩
    ∧ lookupDevice (insertDevice ds ip k) ip = some k
    ∧ Discover.discover
        [.good "192.168.1.7" (sysReplyWithType (.jstr "IOT.SMARTPLUGSWITCH")),
         .good "192.168.1.7" (sysReplyWithType (.jstr "IOT.SMARTBULB"))] =
      [("192.168.1.7", DeviceKind.bulb)] := by
  have main : ∀ reply : JVal,
      extractTypeField st.lastType reply = .ok (some (.jstr t)) →
      discStep st (.good ip reply) =
        .ok ⟨applyClassification st.devices ip t, some (.jstr t)⟩ := by
    intro reply hr
    simp only [discStep, hr]
    simp only [applyClassification, specClassify]
    cases h1 : strContains (pyLower t) "smartplug" <;>
      cases h2 : strContains (pyLower t) "smartbulb" <;> simp [h1, h2]
  exact ⟨main _ rfl, main _ rfl, main _ rfl,
    lookupDevice_insertDevice ds ip k, by decide⟩

/-- C3: for any capability-advertising sysinfo and any synthetic light state,
when the reported `on_off` is falsy the `hsv`, `brightness` and `color_temp`
getters read hue, saturation, brightness and color temperature from the
nested `dft_on_state` object, and when it is truthy they read the top-level
fields (brightness scaled to 0-255 inside `hsv`). -/
theorem c3_default_on_state_fallback (si : List (String × JVal)) (onOff : JVal)
    (th ts tb tc dh dsat db dc : Int)
    (hc : SmartBulb.is_color si = true)
    (hd : SmartBulb.is_dimmable si = true)
    (hv : SmartBulb.is_variable_color_temp si = true) :
    (pyTruthy onOff = false →
      SmartBulb.hsv si (bulbReply (mkLightStateFields onOff th ts tb tc dh dsat db dc)) =
        .ok (some (.jint dh, .jint dsat, intScale db 255 100))
      ∧ SmartBulb.brightness si
          (bulbReply (mkLightStateFields onOff th ts tb tc dh dsat db dc)) =
        .ok (some db)
      ∧ SmartBulb.color_temp si
          (bulbReply (mkLightStateFields onOff th ts tb tc dh dsat db dc)) =
        .ok (some dc))
    ∧ (pyTruthy onOff = true →
      SmartBulb.hsv si (bulbReply (mkLightStateFields onOff th ts tb tc dh dsat db dc)) =
        .ok (some (.jint th, .jint ts, intScale tb 255 100))
      ∧ SmartBulb.brightness si
          (bulbReply (mkLightStateFields onOff th ts tb tc dh dsat db dc)) =
        .ok (some tb)
      ∧ SmartBulb.color_temp si
          (bulbReply (mkLightStateFields onOff th ts tb tc dh dsat db dc)) =
        .ok (some tc)) := by
  constructor <;> intro hOn <;>
    refine ⟨?_, ?_, ?_⟩ <;>
      simp [SmartBulb.hsv, SmartBulb.brightness, SmartBulb.color_temp,
        SmartBulb.is_on, SmartBulb.state, SmartBulb.get_light_state,
        SmartDevice.query, SmartDevice.queryHelper, bulbReply,
        mkLightStateFields, SmartBulb.lightingServiceNs, pyContainsKey,
        pySubscript, pyDelKey, hasField, lookupField, removeField, pyInt,
        Except.map, hc, hd, hv, hOn]

/-- C3 witness: a concrete off bulb (on_off 0) with distinct top-level and
default-on-state values reads 55/66/77/88 from `dft_on_state` (hsv value
77*255/100 truncated = 196), not the top-level 11/22/33/44. -/
theorem c3_default_on_state_fallback_witness :
    SmartBulb.hsv siAllCaps
        (bulbReply (mkLightStateFields (.jint 0) 11 22 33 44 55 66 77 88)) =
      .ok (some (.jint 55, .jint 66, 196))
    ∧ SmartBulb.brightness siAllCaps
        (bulbReply (mkLightStateFields (.jint 0) 11 22 33 44 55 66 77 88)) =
      .ok (some 77)
    ∧ SmartBulb.color_temp siAllCaps
        (bulbReply (mkLightStateFields (.jint 0) 11 22 33 44 55 66 77 88)) =
      .ok (some 88) := by
  exact c3_default_on_state_fallback siAllCaps (.jint 0) 11 22 33 44 55 66 77 88
    (by decide) (by decide) (by decide) |>.1 (by decide)

/-- C5: daily-energy aggregation maps each `day_list` entry's `day` to its
energy value, choosing the `energy_wh` field when the family's unit flag is
scaled and the `energy` field when it is raw (shown on an entry carrying
both fields with different values), and the claim's concrete scaled response
`[{day:1, energy_wh:120}, {day:2, energy_wh:80}]` yields `{1:120, 2:80}`. -/
theorem c5_daily_energy_aggregation :
    (∀ (units : Bool) (d w e : Int),
      SmartDevice.get_emeter_daily ⟨true, "emeter", units⟩
          (dayReply [dayEntry d w e]) 2018 1 =
        (.ok (some [(.jint d, .jint (if units then w else e))]),
         [("emeter", "get_daystat", .jobj [("month", .jint 1), ("year", .jint 2018)])]))
    ∧ SmartDevice.get_emeter_daily ⟨true, "emeter", true⟩
        (dayReply [dayEntryWh 1 120, dayEntryWh 2 80]) 2018 1 =
      (.ok (some [(.jint 1, .jint 120), (.jint 2, .jint 80)]),
       [("emeter", "get_daystat", .jobj [("month", .jint 1), ("year", .jint 2018)])]) := by
  refine ⟨?_, rfl⟩
  intro units d w e
  cases units <;> rfl

/-- C6: the hsv setter scales an external 0-255 value to the native 0-100
scale by `int(v * 100 / 255)` (truncation toward zero, `Int.tdiv`) and the
hsv getter scales the native brightness back by `int(b * 255 / 100)`; in
particular external 255 goes to native 100, external 0 to native 0, and the
round trip is not bit-exact: external 3 becomes native 1, which reads back
as external 2. -/
theorem c6_brightness_scale_conversion :
    (∀ h s v : Int,
      SmartBulb.hsvSet siColorDim bulbSetReply h s v =
        (.ok (), [(SmartBulb.lightingServiceNs, "transition_light_state",
          .jobj [("hue", .jint h), ("saturation", .jint s),
                 ("brightness", .jint (Int.tdiv (v * 100) 255)),
                 ("color_temp", .jint 0)])]))
    ∧ (∀ b : Int,
      SmartBulb.hsv siColorDim
          (bulbReply (mkLightStateFields (.jint 1) 0 0 b 0 0 0 0 0)) =
        .ok (some (.jint 0, .jint 0, Int.tdiv (b * 255) 100)))
    ∧ SmartBulb.hsvSet siColorDim bulbSetReply 0 0 255 =
      (.ok (), [(SmartBulb.lightingServiceNs, "transition_light_state",
        .jobj [("hue", .jint 0), ("saturation", .jint 0),
               ("brightness", .jint 100), ("color_temp", .jint 0)])])
    ∧ SmartBulb.hsvSet siColorDim bulbSetReply 0 0 0 =
      (.ok (), [(SmartBulb.lightingServiceNs, "transition_light_state",
        .jobj [("hue", .jint 0), ("saturation", .jint 0),
               ("brightness", .jint 0), ("color_temp", .jint 0)])])
    ∧ SmartBulb.hsvSet siColorDim bulbSetReply 0 0 3 =
      (.ok (), [(SmartBulb.lightingServiceNs, "transition_light_state",
        .jobj [("hue", .jint 0), ("saturation", .jint 0),
               ("brightness", .jint 1), ("color_temp", .jint 0)])])
    ∧ SmartBulb.hsv siColorDim
        (bulbReply (mkLightStateFields (.jint 1) 0 0 1 0 0 0 0 0)) =
      .ok (some (.jint 0, .jint 0, 2))
    ∧ (2 : Int) ≠ 3 := by
  exact ⟨fun h s v => rfl, fun b => rfl, rfl, rfl, rfl, rfl, by decide⟩

/-- C7: on any device whose capability flags report no energy meter, the
realtime, daily and monthly readings return `None` and erase returns
`False`, each with an empty request log — no metering query is attempted;
and a plug sysinfo whose feature string lacks the `ENE` marker is exactly
such a device. -/
theorem c7_no_emeter_short_circuit (dev : SmartDeviceCfg) (proto : ProtoFn)
    (year month : Int) (h : dev.has_emeter = false) :
    SmartDevice.get_emeter_realtime dev proto = (.ok none, [])
    ∧ SmartDevice.get_emeter_daily dev proto year month = (.ok none, [])
    ∧ SmartDevice.get_emeter_monthly dev proto year = (.ok none, [])
    ∧ SmartDevice.erase_emeter_stats dev proto = (.ok false, [])
    ∧ SmartPlug.has_emeter [("feature", .jstr "TIM")] = .ok false := by
  refine ⟨?_, ?_, ?_, ?_, rfl⟩ <;>
    simp [SmartDevice.get_emeter_realtime, SmartDevice.get_emeter_daily,
      SmartDevice.get_emeter_monthly, SmartDevice.erase_emeter_stats, h]

/-- C7 witness: a concrete meterless device configuration and a transport
that would fail if contacted. -/
theorem c7_no_emeter_short_circuit_witness :
    SmartDevice.get_emeter_realtime ⟨false, "emeter", false⟩ (fun _ => .error ()) =
      (.ok none, [])
    ∧ SmartDevice.get_emeter_daily ⟨false, "emeter", false⟩ (fun _ => .error ()) 2018 1 =
      (.ok none, [])
    ∧ SmartDevice.get_emeter_monthly ⟨false, "emeter", false⟩ (fun _ => .error ()) 2018 =
      (.ok none, [])
    ∧ SmartDevice.erase_emeter_stats ⟨false, "emeter", false⟩ (fun _ => .error ()) =
      (.ok false, [])
    ∧ SmartPlug.has_emeter [("feature", .jstr "TIM")] = .ok false := by
  exact c7_no_emeter_short_circuit ⟨false, "emeter", false⟩ (fun _ => .error ()) 2018 1 rfl

/-- C8 counterexample: the claim says a brightness value outside 0-100 raises
a validation error before any network activity.  On a dimmable bulb the
embedded brightness setter accepts 999, raises nothing, and puts a
`transition_light_state` request carrying the raw value on the wire. -/
theorem c8_brightness_not_validated :
    SmartBulb.brightnessSet siColorDim bulbSetReply 999 =
      (.ok (), [(SmartBulb.lightingServiceNs, "transition_light_state",
        .jobj [("brightness", .jint 999)])]) := rfl

/-- C8 amended: a malformed IP address is rejected by `inet_pton` at
construction, before any network activity (the constructor's request log is
empty on every path); the brightness setter, however, performs no range
validation — on a dimmable bulb it forwards any caller value unchanged to
the device in the light-state query. -/
theorem c8_validation_behavior :
    (∀ ip : String, inet_pton_valid ip = false →
      SmartDevice.init ip =
        (.error (.socketError "illegal IP address string passed to inet_pton"), []))
    ∧ (∀ (si : List (String × JVal)) (proto : ProtoFn) (b : Int),
      SmartBulb.is_dimmable si = true →
      (SmartBulb.brightnessSet si proto b).2 =
        [(SmartBulb.lightingServiceNs, "transition_light_state",
          .jobj [("brightness", .jint b)])]) := by
  constructor
  · intro ip h
    simp [SmartDevice.init, h]
  · intro si proto b h
    simp [SmartBulb.brightnessSet, h, SmartBulb.set_light_state, SmartDevice.query]

/-- C8 witness: the malformed address "not-an-ip" is rejected with no
request sent, and brightness 999 on a dimmable bulb is forwarded as-is. -/
theorem c8_validation_behavior_witness :
    SmartDevice.init "not-an-ip" =
      (.error (.socketError "illegal IP address string passed to inet_pton"), [])
    ∧ (SmartBulb.brightnessSet siColorDim (fun _ => .error ()) 999).2 =
      [(SmartBulb.lightingServiceNs, "transition_light_state",
        .jobj [("brightness", .jint 999)])] := by
  exact ⟨c8_validation_behavior.1 "not-an-ip" (by decide),
         c8_validation_behavior.2 siColorDim (fun _ => .error ()) 999 (by decide)⟩

/-- C9 counterexample: the claim says every message on the wire, including
the UDP discovery broadcast, is the full Wire Codec frame (4-byte big-endian
length prefix plus obfuscated payload).  For the concrete 2-byte payload
`7b 7d` the bytes discovery actually broadcasts differ from the Wire Codec
encoding: the source strips the first four bytes (`encrypted_req[4:]`). -/
theorem c9_discovery_strips_length_header :
    Discover.broadcastPayload [123, 125] ≠
      TPLinkSmartHomeProtocol.encrypt [123, 125] := by decide

/-- C9 amended: TCP query messages are the full Wire Codec frame — length
prefix plus XOR chain — but the UDP discovery broadcast carries only the
XOR-chain-obfuscated payload, with the 4-byte length prefix stripped. -/
theorem c9_wire_format :
    (∀ req : List Nat, TPLinkSmartHomeProtocol.encrypt req =
      be32pack req.length ++
        xorChainEncrypt TPLinkSmartHomeProtocol.initialKey req)
    ∧ (∀ req : List Nat, Discover.broadcastPayload req =
      xorChainEncrypt TPLinkSmartHomeProtocol.initialKey req) := by
  exact ⟨fun req => rfl, fun req => rfl⟩

/-- C10: when the requested namespace is present and the namespace-level
`err_code` test passes, `_query_helper` unconditionally deletes `err_code`
from the inner command object before returning it; consequently a response
whose inner object lacks `err_code` — or lacks the command key entirely —
raises an untyped `KeyError`, not a `SmartDeviceException`. -/
theorem c10_unconditional_err_code_delete
    (rfs tfs : List (String × JVal)) (target cmd : String)
    (hns : lookupField rfs target = some (.jobj tfs))
    (herr : errCodeCheckPasses tfs = true) :
    (∀ cfs, lookupField tfs cmd = some (.jobj cfs) →
      SmartDevice.queryHelper (.ok (.jobj rfs)) target cmd =
        (if hasField cfs "err_code" then .ok (.jobj (removeField cfs "err_code"))
         else .error (.keyError "err_code")))
    ∧ (lookupField tfs cmd = none →
      SmartDevice.queryHelper (.ok (.jobj rfs)) target cmd =
        .error (.keyError cmd)) := by
  have hpre : ∀ k : String,
      SmartDevice.queryHelper (.ok (.jobj rfs)) target k =
        (match pySubscript (JVal.jobj tfs) k with
         | .error e => .error e
         | .ok inner => pyDelKey inner "err_code") := by
    intro k
    cases hec : lookupField tfs "err_code" with
    | none =>
      simp [SmartDevice.queryHelper, pyContainsKey, pySubscript, hasField,
        hns, hec]
    | some v =>
      have hz : pyNeZero v = false := by
        simpa [errCodeCheckPasses, hec] using herr
      simp [SmartDevice.queryHelper, pyContainsKey, pySubscript, hasField,
        hns, hec, Except.map, hz]
  constructor
  · intro cfs hcmd
    rw [hpre cmd]
    simp [pySubscript, hcmd, pyDelKey]
  · intro hcmd
    rw [hpre cmd]
    simp [pySubscript, hcmd]

/-- C10 witness: a response whose inner `get_sysinfo` object carries no
`err_code` makes the helper raise `KeyError('err_code')`. -/
theorem c10_unconditional_err_code_delete_witness :
    SmartDevice.queryHelper
      (.ok (.jobj [("system", .jobj [("get_sysinfo", .jobj [("model", .jstr "HS100")])])]))
      "system" "get_sysinfo" = .error (.keyError "err_code") := by
  have h := c10_unconditional_err_code_delete
    [("system", .jobj [("get_sysinfo", .jobj [("model", .jstr "HS100")])])]
    [("get_sysinfo", .jobj [("model", .jstr "HS100")])]
    "system" "get_sysinfo" rfl rfl
  simpa using h.1 [("model", .jstr "HS100")] rfl
